import Mathlib

/-!
Shallow embedding of the wgpu surface-lifecycle program (src/main.rs).

The graphics API is modelled by a trace of events: a call to
surface.configure, the acquisition attempt of get_current_texture, the
recorded render pass, queue.submit and output.present each leave one
event in the trace, in call order.  The outcome of get_current_texture
is an input of render, since it is decided by the environment.
-/

/-- Mirrors winit PhysicalSize with u32 fields. -/
structure PhysicalSize where
  width : Nat
  height : Nat
deriving DecidableEq, Repr

/-- Present mode used by the code (wgpu PresentMode, only Fifo is used). -/
inductive PresentMode where
  | Fifo
deriving DecidableEq, Repr

/-- Mirrors wgpu SurfaceConfiguration; the fields the code sets.  usage and
view_formats are compile-time constants in the code and carry no information,
so they are omitted. -/
structure SurfaceConfiguration where
  format : Nat
  width : Nat
  height : Nat
  presentMode : PresentMode
  alphaMode : Nat
  desiredMaximumFrameLatency : Nat
deriving DecidableEq, Repr

/-- The result of surface.get_capabilities: the code reads formats[0] and
alpha_modes[0].  Formats and alpha modes are abstract numeric codes. -/
structure SurfaceCapabilities where
  formats : List Nat
  alphaModes : List Nat
deriving DecidableEq, Repr

/-- Mirrors wgpu SurfaceError. -/
inductive SurfaceError where
  | Timeout
  | Outdated
  | Lost
  | OutOfMemory
  | Other
deriving DecidableEq, Repr

/-- Mirrors wgpu Color; the clear color literals of the code are exact
decimal literals, modelled as rationals. -/
structure Color where
  r : ℚ
  g : ℚ
  b : ℚ
  a : ℚ
deriving DecidableEq, Repr

/-- Mirrors wgpu StoreOp. -/
inductive StoreOp where
  | Store
  | Discard
deriving DecidableEq, Repr

/-- One observable call into the graphics API.  beginRenderPass records the
clear color of its single color attachment (the view of the acquired frame),
its store op, and the number of draw calls recorded inside the pass. -/
inductive GpuEvent where
  | configure (cfg : SurfaceConfiguration)
  | acquire
  | beginRenderPass (clear : Color) (store : StoreOp) (draws : Nat)
  | submit
  | present
deriving DecidableEq, Repr

/-- True exactly on configure events. -/
def GpuEvent.isConfigure : GpuEvent → Bool
  | .configure _ => true
  | _ => false

/-- True exactly on beginRenderPass events. -/
def GpuEvent.isRenderPass : GpuEvent → Bool
  | .beginRenderPass _ _ _ => true
  | _ => false

/-- State of struct WgpuApp: the surface configuration last applied, the
tracked window size, and the dirty flag size_changed.  The surface, device,
queue and window handles carry no state relevant to the claims and are
represented by the event trace instead. -/
structure WgpuApp where
  config : SurfaceConfiguration
  size : PhysicalSize
  size_changed : Bool
deriving DecidableEq, Repr

/-- WgpuApp::new: clamps each dimension of the window size to a minimum of 1,
builds the configuration from the capability query (first format, first alpha
mode, Fifo, latency 2) and applies it to the surface once.  In the code,
caps.formats[0] on an empty capability list would panic; the model totalizes
the lookup with getD, which the claims never exercise. -/
def WgpuApp.new (caps : SurfaceCapabilities) (windowSize : PhysicalSize) :
    WgpuApp × List GpuEvent :=
  let size : PhysicalSize := ⟨max windowSize.width 1, max windowSize.height 1⟩
  let config : SurfaceConfiguration :=
    { format := caps.formats.getD 0 0
      width := size.width
      height := size.height
      presentMode := .Fifo
      alphaMode := caps.alphaModes.getD 0 0
      desiredMaximumFrameLatency := 2 }
  ({ config := config, size := size, size_changed := false }, [.configure config])

/-- WgpuApp::set_window_resized: early-returns when new_size equals the
tracked size, otherwise records it and sets the dirty flag. -/
def WgpuApp.set_window_resized (self : WgpuApp) (new_size : PhysicalSize) :
    WgpuApp :=
  if new_size = self.size then self
  else { self with size := new_size, size_changed := true }

/-- WgpuApp::resize_surface_if_needed: when the dirty flag is set, writes the
tracked size into the configuration, reapplies it to the surface, and clears
the flag; otherwise does nothing. -/
def WgpuApp.resize_surface_if_needed (self : WgpuApp) :
    WgpuApp × List GpuEvent :=
  if self.size_changed then
    let config : SurfaceConfiguration :=
      { self.config with width := self.size.width, height := self.size.height }
    ({ self with config := config, size_changed := false }, [.configure config])
  else (self, [])

/-- The clear color literal of the render pass in WgpuApp::render. -/
def clearColor : Color := { r := 1/10, g := 2/10, b := 3/10, a := 1 }

/-- WgpuApp::render: applies a pending resize, then attempts to acquire the
next frame (outcome acq is the environment input; the question-mark operator
returns the error immediately), then records one render pass that clears the
frame view to clearColor with store enabled and no draws, submits, and
presents. -/
def WgpuApp.render (self : WgpuApp) (acq : Except SurfaceError Unit) :
    WgpuApp × Except SurfaceError Unit × List GpuEvent :=
  let r := self.resize_surface_if_needed
  match acq with
  | .error e => (r.1, .error e, r.2 ++ [.acquire])
  | .ok _ =>
      (r.1, .ok (),
        r.2 ++ [.acquire, .beginRenderPass clearColor .Store 0, .submit, .present])

/-- The window events the handler matches on (other events fall into Other). -/
inductive WindowEvent where
  | CloseRequested
  | Resized (size : PhysicalSize)
  | RedrawRequested
  | Other
deriving DecidableEq, Repr

/-- One observable action of the event-loop handler. -/
inductive DriverAction where
  | exitLoop
  | createWindow
  | prePresentNotify
  | gpu (e : GpuEvent)
  | logLost
  | logError (e : SurfaceError)
  | requestRedraw
deriving DecidableEq, Repr

/-- State of struct WgpuAppHandler: the optional constructed app.  The mutex
is dropped: the host loop delivers events sequentially in this model. -/
structure WgpuAppHandler where
  app : Option WgpuApp
deriving DecidableEq, Repr

/-- The logging arm of the match on render() in the RedrawRequested branch:
Lost gets its dedicated message, every other error is printed, success logs
nothing. -/
def logActions : Except SurfaceError Unit → List DriverAction
  | .ok _ => []
  | .error .Lost => [.logLost]
  | .error e => [.logError e]

/-- WgpuAppHandler::resumed: returns at once when the app slot is occupied;
otherwise creates the window and constructs WgpuApp, storing it in the slot.
The capability query result and the window size reported by the new window
are environment inputs. -/
def WgpuAppHandler.resumed (self : WgpuAppHandler) (caps : SurfaceCapabilities)
    (windowSize : PhysicalSize) : WgpuAppHandler × List DriverAction :=
  match self.app with
  | some _ => (self, [])
  | none =>
      let r := WgpuApp.new caps windowSize
      ({ app := some r.1 }, .createWindow :: r.2.map .gpu)

/-- WgpuAppHandler::window_event: all arms are inside `if let Some(app)`, so
with an empty slot every event is dropped.  CloseRequested exits the loop;
Resized forwards to set_window_resized only when both dimensions are
positive; RedrawRequested notifies presentation, renders (acq is the
acquisition outcome for this call), logs any error, and requests another
redraw. -/
def WgpuAppHandler.window_event (self : WgpuAppHandler) (event : WindowEvent)
    (acq : Except SurfaceError Unit) : WgpuAppHandler × List DriverAction :=
  match self.app with
  | none => (self, [])
  | some app =>
    match event with
    | .CloseRequested => (self, [.exitLoop])
    | .Resized physical_size =>
        if 0 < physical_size.width ∧ 0 < physical_size.height then
          ({ app := some (app.set_window_resized physical_size) }, [])
        else (self, [])
    | .RedrawRequested =>
        let r := app.render acq
        ({ app := some r.1 },
          [.prePresentNotify] ++ r.2.2.map .gpu ++ logActions r.2.1
            ++ [.requestRedraw])
    | .Other => (self, [])

/-- A concrete capability query result used for concrete scenarios. -/
def capsA : SurfaceCapabilities := { formats := [0], alphaModes := [0] }

/-- A concrete app constructed at window size 800 by 600. -/
def sampleApp : WgpuApp := (WgpuApp.new capsA ⟨800, 600⟩).1

/-- A concrete reachable state with the dirty flag set while the pending size
equals the configured size: constructed at 100 by 100, resized to 200 by 150,
then resized back to 100 by 100 before any render. -/
def appB : WgpuApp :=
  ((WgpuApp.new capsA ⟨100, 100⟩).1.set_window_resized
    ⟨200, 150⟩).set_window_resized ⟨100, 100⟩

/-! ### Helper lemmas shared between claims -/

/-- Every event emitted by resize_surface_if_needed is a configure. -/
theorem resize_trace_all_configure (app : WgpuApp) :
    ∀ e ∈ (app.resize_surface_if_needed).2, e.isConfigure = true := by
  by_cases h : app.size_changed <;>
    simp [WgpuApp.resize_surface_if_needed, h, GpuEvent.isConfigure]

/-- The trace of render is the resize trace followed by a configure-free
tail. -/
theorem render_trace_split (app : WgpuApp) (acq : Except SurfaceError Unit) :
    ∃ t, (app.render acq).2.2 = (app.resize_surface_if_needed).2 ++ t
      ∧ ∀ e ∈ t, e.isConfigure = false := by
  cases acq with
  | error e =>
      exact ⟨[.acquire], rfl, by simp [GpuEvent.isConfigure]⟩
  | ok u =>
      refine ⟨[.acquire, .beginRenderPass clearColor .Store 0, .submit, .present],
        rfl, ?_⟩
      simp [GpuEvent.isConfigure]

/-- In a concatenation of an all-configure block and a configure-free block,
every configure position lies strictly before every acquire position. -/
theorem configure_index_lt_acquire_index {t1 t2 : List GpuEvent}
    (h1 : ∀ e ∈ t1, e.isConfigure = true) (h2 : ∀ e ∈ t2, e.isConfigure = false)
    (i j : Nat) (hi : i < (t1 ++ t2).length) (hj : j < (t1 ++ t2).length)
    (hci : ((t1 ++ t2).get ⟨i, hi⟩).isConfigure = true)
    (haj : (t1 ++ t2).get ⟨j, hj⟩ = .acquire) : i < j := by
  have hi1 : i < t1.length := by
    by_contra hc
    push_neg at hc
    have hb : i - t1.length < t2.length := by
      have := List.length_append t1 t2
      omega
    have hget : (t1 ++ t2).get ⟨i, hi⟩ = t2.get ⟨i - t1.length, hb⟩ := by
      simp [List.get_eq_getElem]
      exact List.getElem_append_right hc
    rw [hget] at hci
    have hmem : t2.get ⟨i - t1.length, hb⟩ ∈ t2 := List.get_mem t2 _ hb
    have := h2 _ hmem
    rw [hci] at this
    exact Bool.true_eq_false.mp this
  have hj1 : t1.length ≤ j := by
    by_contra hc
    push_neg at hc
    have hget : (t1 ++ t2).get ⟨j, hj⟩ = t1.get ⟨j, hc⟩ := by
      simp [List.get_eq_getElem]
      exact List.getElem_append_left hc
    rw [hget] at haj
    have hmem : t1.get ⟨j, hc⟩ ∈ t1 := List.get_mem t1 _ _
    have := h1 _ hmem
    rw [haj] at this
    exact absurd this (by simp [GpuEvent.isConfigure])
  omega

/-- In the trace of any render call, every configure position lies strictly
before every acquire position. -/
theorem render_configure_before_acquire (app : WgpuApp)
    (acq : Except SurfaceError Unit) (i j : Nat)
    (hi : i < ((app.render acq).2.2).length)
    (hj : j < ((app.render acq).2.2).length)
    (hci : (((app.render acq).2.2).get ⟨i, hi⟩).isConfigure = true)
    (haj : ((app.render acq).2.2).get ⟨j, hj⟩ = .acquire) : i < j := by
  obtain ⟨t, ht, hfree⟩ := render_trace_split app acq
  revert hi hj
  rw [ht]
  intro hi hj hci haj
  exact configure_index_lt_acquire_index (resize_trace_all_configure app) hfree
    i j hi hj hci haj

/-- render never touches the tracked size and always leaves the dirty flag
clear; its final state is the state resize_surface_if_needed produced. -/
theorem render_fst (app : WgpuApp) (acq : Except SurfaceError Unit) :
    (app.render acq).1 = (app.resize_surface_if_needed).1 := by
  cases acq <;> rfl

/-- resize_surface_if_needed clears the dirty flag and keeps the tracked
size. -/
theorem resize_fst_flag (app : WgpuApp) :
    (app.resize_surface_if_needed).1.size_changed = false
      ∧ (app.resize_surface_if_needed).1.size = app.size
      ∧ (app.resize_surface_if_needed).1.config =
          (if app.size_changed then
            { app.config with width := app.size.width, height := app.size.height }
          else app.config) := by
  by_cases h : app.size_changed <;>
    simp [WgpuApp.resize_surface_if_needed, h]

/-! ### Claim theorems -/

/-- Claim C1 (amended): during render, the surface is reconfigured if and
only if the dirty flag size_changed is set, regardless of whether the
pending size differs from the current configuration; when set, the new
configuration takes the pending width and height and the flag is cleared;
when clear, configuration and trace are untouched. -/
theorem resize_reconfigures_iff_dirty (app : WgpuApp) :
    (app.resize_surface_if_needed).1.size_changed = false
    ∧ (app.resize_surface_if_needed).1.size = app.size
    ∧ (app.resize_surface_if_needed).1.config.width =
        (if app.size_changed then app.size.width else app.config.width)
    ∧ (app.resize_surface_if_needed).1.config.height =
        (if app.size_changed then app.size.height else app.config.height)
    ∧ (app.resize_surface_if_needed).2 =
        (if app.size_changed then
          [.configure (app.resize_surface_if_needed).1.config] else []) := by
  by_cases h : app.size_changed <;>
    simp [WgpuApp.resize_surface_if_needed, h]

/-- Witness for C1: evaluation at the concrete state sampleApp. -/
theorem resize_reconfigures_iff_dirty_witness :
    (sampleApp.resize_surface_if_needed).1.size_changed = false :=
  (resize_reconfigures_iff_dirty sampleApp).1

/-- Counterexample to C1 as stated: in the reachable state appB the dirty
flag is set while the pending size equals the configured size, yet render
would still reconfigure the surface (the resize trace is nonempty) and clear
the dirty flag, contradicting the claim that in this case the surface
configuration is left unchanged. -/
theorem resize_equal_size_still_reconfigures :
    appB.size_changed = true
    ∧ appB.size.width = appB.config.width
    ∧ appB.size.height = appB.config.height
    ∧ (appB.resize_surface_if_needed).2 ≠ []
    ∧ (appB.resize_surface_if_needed).1.size_changed = false := by
  decide

/-- Claim C8: the construction step clamps each window dimension to a
minimum of 1 for both the configuration and the tracked size; in
particular a 0 by 0 window yields a 1 by 1 configuration. -/
theorem new_clamps_size (caps : SurfaceCapabilities) (sz : PhysicalSize) :
    (WgpuApp.new caps sz).1.config.width = max sz.width 1
    ∧ (WgpuApp.new caps sz).1.config.height = max sz.height 1
    ∧ 0 < (WgpuApp.new caps sz).1.config.width
    ∧ 0 < (WgpuApp.new caps sz).1.config.height
    ∧ (WgpuApp.new caps ⟨0, 0⟩).1.config.width = 1
    ∧ (WgpuApp.new caps ⟨0, 0⟩).1.config.height = 1
    ∧ (WgpuApp.new caps sz).1.size.width = max sz.width 1
    ∧ (WgpuApp.new caps sz).1.size.height = max sz.height 1 := by
  refine ⟨rfl, rfl, ?_, ?_, rfl, rfl, rfl, rfl⟩ <;>
    · simp only [WgpuApp.new]
      omega

/-- Witness for C8: evaluation at the concrete input capsA, size 0 by 0. -/
theorem new_clamps_size_witness :
    (WgpuApp.new capsA ⟨0, 0⟩).1.config.width = 1 :=
  (new_clamps_size capsA ⟨0, 0⟩).2.2.2.2.1

/-- Claim C10: with the app slot still empty, every window event (close
requests included) is dropped: the handler state is unchanged and no action,
in particular no event-loop exit, is taken. -/
theorem uninitialized_window_event_ignored (event : WindowEvent)
    (acq : Except SurfaceError Unit) :
    (WgpuAppHandler.mk none).window_event event acq = (WgpuAppHandler.mk none, [])
    ∧ DriverAction.exitLoop ∉ ((WgpuAppHandler.mk none).window_event event acq).2 := by
  refine ⟨rfl, ?_⟩
  exact List.not_mem_nil _

/-- Witness for C10: evaluation at a concrete close request. -/
theorem uninitialized_window_event_ignored_witness :
    (WgpuAppHandler.mk none).window_event .CloseRequested (.ok ())
      = (WgpuAppHandler.mk none, []) :=
  (uninitialized_window_event_ignored .CloseRequested (.ok ())).1

/-- Claim C4: a resize notification with a zero dimension is dropped before
reaching the resize state: the handler, and with it configuration, tracked
size and dirty flag, are unchanged and no action is taken. -/
theorem zero_resize_ignored (h : WgpuAppHandler) (sz : PhysicalSize)
    (acq : Except SurfaceError Unit) (hz : sz.width = 0 ∨ sz.height = 0) :
    h.window_event (.Resized sz) acq = (h, []) := by
  have hneg : ¬(0 < sz.width ∧ 0 < sz.height) := by
    rcases hz with h0 | h0 <;> omega
  obtain ⟨app⟩ := h
  cases app with
  | none => rfl
  | some a => simp [WgpuAppHandler.window_event, hneg]

/-- Witness for C4: a concrete zero-width notification on a populated
handler. -/
theorem zero_resize_ignored_witness :
    (WgpuAppHandler.mk (some sampleApp)).window_event (.Resized ⟨0, 50⟩) (.ok ())
      = (WgpuAppHandler.mk (some sampleApp), []) :=
  zero_resize_ignored (WgpuAppHandler.mk (some sampleApp)) ⟨0, 50⟩ (.ok ())
    (Or.inl rfl)

/-- set_window_resized always leaves the tracked size equal to its
argument. -/
theorem set_window_resized_size (app : WgpuApp) (sz : PhysicalSize) :
    (app.set_window_resized sz).size = sz := by
  by_cases h : sz = app.size <;> simp [WgpuApp.set_window_resized, h]

/-- set_window_resized never touches the applied configuration. -/
theorem set_window_resized_config (app : WgpuApp) (sz : PhysicalSize) :
    (app.set_window_resized sz).config = app.config := by
  by_cases h : sz = app.size <;> simp [WgpuApp.set_window_resized, h]

/-- After any nonempty burst of notifications the remembered size is the
last one delivered. -/
theorem foldl_set_size (app : WgpuApp) (ns : List PhysicalSize)
    (l : PhysicalSize) :
    (List.foldl WgpuApp.set_window_resized app (ns ++ [l])).size = l := by
  rw [List.foldl_append]
  exact set_window_resized_size _ l

/-- A burst of notifications never touches the applied configuration. -/
theorem foldl_set_config (app : WgpuApp) (ns : List PhysicalSize) :
    (List.foldl WgpuApp.set_window_resized app ns).config = app.config := by
  induction ns generalizing app with
  | nil => rfl
  | cons n rest ih => rw [List.foldl_cons, ih, set_window_resized_config]

/-- Claim C3: a notification equal to the recorded size is a no-op; after any
burst of notifications exactly the last size is remembered and the next
render issues at most one reconfiguration, necessarily to that last size;
the concrete burst 100x100, 100x100, 200x150 on an app constructed at
100x100 issues exactly one reconfiguration, to 200x150. -/
theorem resize_coalescing (app : WgpuApp) (sz : PhysicalSize)
    (ns : List PhysicalSize) (l : PhysicalSize) (hsz : sz = app.size) :
    app.set_window_resized sz = app
    ∧ (List.foldl WgpuApp.set_window_resized app (ns ++ [l])).size = l
    ∧ (((List.foldl WgpuApp.set_window_resized app (ns ++ [l])).resize_surface_if_needed).2 = []
       ∨ ((List.foldl WgpuApp.set_window_resized app (ns ++ [l])).resize_surface_if_needed).2
           = [.configure { app.config with width := l.width, height := l.height }])
    ∧ ((((WgpuApp.new capsA ⟨100, 100⟩).1.set_window_resized
          ⟨100, 100⟩).set_window_resized ⟨100, 100⟩).set_window_resized
          ⟨200, 150⟩).resize_surface_if_needed.2
        = [.configure ⟨0, 200, 150, .Fifo, 0, 2⟩] := by
  refine ⟨by simp [WgpuApp.set_window_resized, hsz], foldl_set_size app ns l, ?_, by decide⟩
  have hcfg := foldl_set_config app (ns ++ [l])
  have hsize := foldl_set_size app ns l
  set F := List.foldl WgpuApp.set_window_resized app (ns ++ [l]) with hFdef
  by_cases hF : F.size_changed
  · right
    simp only [WgpuApp.resize_surface_if_needed, hF, if_true]
    simp [hcfg, hsize]
  · left
    simp [WgpuApp.resize_surface_if_needed, hF]

/-- Witness for C3: the burst 100x100 then 200x150 on sampleApp remembers
200x150. -/
theorem resize_coalescing_witness :
    (List.foldl WgpuApp.set_window_resized sampleApp
      ([⟨100, 100⟩] ++ [⟨200, 150⟩])).size = ⟨200, 150⟩ :=
  (resize_coalescing sampleApp ⟨800, 600⟩ [⟨100, 100⟩] ⟨200, 150⟩ (by decide)).2.1

/-- Claim C9: a resume with the slot already populated changes nothing and
performs no construction; from the empty slot one resume creates exactly one
window and stores the constructed context, and a second resume right after
is a no-op. -/
theorem resumed_idempotent (a : WgpuApp) (c1 c2 : SurfaceCapabilities)
    (s1 s2 : PhysicalSize) :
    (WgpuAppHandler.mk (some a)).resumed c1 s1 = (WgpuAppHandler.mk (some a), [])
    ∧ ((WgpuAppHandler.mk none).resumed c1 s1).1.app = some (WgpuApp.new c1 s1).1
    ∧ (((WgpuAppHandler.mk none).resumed c1 s1).2).count .createWindow = 1
    ∧ (((WgpuAppHandler.mk none).resumed c1 s1).1).resumed c2 s2
        = (((WgpuAppHandler.mk none).resumed c1 s1).1, []) := by
  refine ⟨rfl, rfl, ?_, rfl⟩
  simp [WgpuAppHandler.resumed, WgpuApp.new, List.count_cons]

/-- Witness for C9: a second resume on a populated handler is a no-op. -/
theorem resumed_idempotent_witness :
    (WgpuAppHandler.mk (some sampleApp)).resumed capsA ⟨1, 1⟩
      = (WgpuAppHandler.mk (some sampleApp), []) :=
  (resumed_idempotent sampleApp capsA capsA ⟨1, 1⟩ ⟨1, 1⟩).1

/-- Claim C5: when acquisition fails, render returns the error and skips the
frame: the trace holds exactly one acquisition attempt and no render pass,
no submission and no presentation. -/
theorem render_error_skips_frame (app : WgpuApp) (e : SurfaceError) :
    (app.render (.error e)).2.1 = .error e
    ∧ ((app.render (.error e)).2.2).count .acquire = 1
    ∧ ((app.render (.error e)).2.2).count .submit = 0
    ∧ ((app.render (.error e)).2.2).count .present = 0
    ∧ ((app.render (.error e)).2.2).filter GpuEvent.isRenderPass = [] := by
  by_cases h : app.size_changed <;>
    simp [WgpuApp.render, WgpuApp.resize_surface_if_needed, h, List.count_cons,
      GpuEvent.isRenderPass]

/-- Witness for C5: a concrete Lost acquisition on sampleApp. -/
theorem render_error_skips_frame_witness :
    (sampleApp.render (.error .Lost)).2.1 = .error .Lost :=
  (render_error_skips_frame sampleApp .Lost).1

/-- Claim C7: a successful render produces, after the all-configure resize
block, exactly the sequence acquire, one render pass clearing to color
(0.1, 0.2, 0.3, 1.0) with store enabled and zero draws, submit, present. -/
theorem render_success_clear_pass (app : WgpuApp) :
    (app.render (.ok ())).2.1 = .ok ()
    ∧ (app.render (.ok ())).2.2 =
        (app.resize_surface_if_needed).2 ++
          [.acquire,
            .beginRenderPass { r := 1/10, g := 2/10, b := 3/10, a := 1 } .Store 0,
            .submit, .present]
    ∧ ∀ e ∈ (app.resize_surface_if_needed).2, e.isConfigure = true :=
  ⟨rfl, rfl, resize_trace_all_configure app⟩

/-- Witness for C7: evaluation at sampleApp. -/
theorem render_success_clear_pass_witness :
    (sampleApp.render (.ok ())).2.1 = .ok () :=
  (render_success_clear_pass sampleApp).1

/-- Claim C6: a redraw request on a populated handler always renders, never
exits the loop, logs errors only, and ends by requesting another redraw,
whatever the acquisition outcome. -/
theorem redraw_always_continues (app : WgpuApp) (acq : Except SurfaceError Unit) :
    ((WgpuAppHandler.mk (some app)).window_event .RedrawRequested acq).1
        = WgpuAppHandler.mk (some (app.render acq).1)
    ∧ ((WgpuAppHandler.mk (some app)).window_event .RedrawRequested acq).2
        = [.prePresentNotify] ++ ((app.render acq).2.2).map .gpu
            ++ logActions (app.render acq).2.1 ++ [.requestRedraw]
    ∧ DriverAction.exitLoop
        ∉ ((WgpuAppHandler.mk (some app)).window_event .RedrawRequested acq).2
    ∧ (((WgpuAppHandler.mk (some app)).window_event .RedrawRequested acq).2).getLast?
        = some .requestRedraw
    ∧ logActions (Except.ok ()) = []
    ∧ logActions (.error .Lost) = [.logLost]
    ∧ ∀ e : SurfaceError, e ≠ .Lost → logActions (.error e) = [.logError e] := by
  have hacts : ((WgpuAppHandler.mk (some app)).window_event .RedrawRequested acq).2
      = [.prePresentNotify] ++ ((app.render acq).2.2).map .gpu
          ++ logActions (app.render acq).2.1 ++ [.requestRedraw] := rfl
  refine ⟨rfl, hacts, ?_, ?_, rfl, rfl, ?_⟩
  · rw [hacts]
    rcases acq with e | u
    · cases e <;> simp [logActions, WgpuApp.render]
    · simp [logActions, WgpuApp.render]
  · rw [hacts]
    exact List.getLast?_concat _
  · intro e he
    cases e <;> first | rfl | exact absurd rfl he

/-- Witness for C6: evaluation at sampleApp with a successful acquisition. -/
theorem redraw_always_continues_witness :
    ((WgpuAppHandler.mk (some sampleApp)).window_event .RedrawRequested
        (.ok ())).1
      = WgpuAppHandler.mk (some (sampleApp.render (.ok ())).1) :=
  (redraw_always_continues sampleApp (.ok ())).1

/-- Claim C2: in every render trace each configure position lies strictly
before each acquire position (so the surface is never reconfigured between
acquisition and presentation); a resize noted after a render, when it
changes the tracked size, is reconfigured inside the next render and, by
the same ordering, before that next acquisition. -/
theorem render_reconfigures_before_acquire (app : WgpuApp)
    (acq acq2 : Except SurfaceError Unit) (sz : PhysicalSize)
    (hsz : sz ≠ (app.render acq).1.size) :
    (∀ i j (hi : i < ((app.render acq).2.2).length)
        (hj : j < ((app.render acq).2.2).length),
        (((app.render acq).2.2).get ⟨i, hi⟩).isConfigure = true →
        ((app.render acq).2.2).get ⟨j, hj⟩ = .acquire → i < j)
    ∧ GpuEvent.configure
        { ((app.render acq).1).config with width := sz.width, height := sz.height }
        ∈ (((app.render acq).1.set_window_resized sz).render acq2).2.2
    ∧ (∀ i j (hi : i < ((((app.render acq).1.set_window_resized sz).render acq2).2.2).length)
        (hj : j < ((((app.render acq).1.set_window_resized sz).render acq2).2.2).length),
        (((((app.render acq).1.set_window_resized sz).render acq2).2.2).get
            ⟨i, hi⟩).isConfigure = true →
        ((((app.render acq).1.set_window_resized sz).render acq2).2.2).get
            ⟨j, hj⟩ = .acquire → i < j) := by
  refine ⟨fun i j hi hj => render_configure_before_acquire app acq i j hi hj, ?_,
    fun i j hi hj => render_configure_before_acquire _ acq2 i j hi hj⟩
  have h2 : (app.render acq).1.set_window_resized sz
      = { (app.render acq).1 with size := sz, size_changed := true } := by
    simp [WgpuApp.set_window_resized, hsz]
  obtain ⟨t, ht, hfree⟩ :=
    render_trace_split ((app.render acq).1.set_window_resized sz) acq2
  rw [ht, h2]
  simp [WgpuApp.resize_surface_if_needed]

/-- Witness for C2: the 800x600 sampleApp rendered once, resized to 400x300,
reconfigures to 400x300 inside the next render. -/
theorem render_reconfigures_before_acquire_witness :
    GpuEvent.configure
        { ((sampleApp.render (.ok ())).1).config with width := 400, height := 300 }
      ∈ (((sampleApp.render (.ok ())).1.set_window_resized ⟨400, 300⟩).render
          (.ok ())).2.2 :=
  (render_reconfigures_before_acquire sampleApp (.ok ()) (.ok ()) ⟨400, 300⟩
    (by decide)).2.1
